import Mathlib

/-!
Shallow embedding of the voice-chat UI state logic from
`client/src/components/ChatGPTStyleVoiceUI.tsx` (pipecat-quickstart).

The embedding models:
* the chat-entry data model (`ChatMsg`) and the `MessagePane` component
  state (`msgs`, `botStream`, `isWaitingForResponse`) together with the
  RTVI event handlers registered by `MessagePane`;
* the `MicDock` component state (transport state, mic-enabled flag,
  bot-talking flag, local connecting flag, mode, auto-duck, pressed ref)
  together with its handlers and React effects;
* the `useThreadAndUserId` hook (identity store) over an explicit
  localStorage model that can be unavailable.

`crypto.randomUUID` is modelled as an injective function of a freshness
counter (each call consumes the next counter value), and React state
updates are modelled as pure state transformers applied in source order.
-/

namespace VoiceUI

/-- Roles of a chat entry, from the `ChatMsg` interface
(`"user" | "assistant" | "system" | "function"`). -/
inductive Role where
  | user
  | assistant
  | system
  | function
deriving DecidableEq, Repr

/-- A chat entry, from the `ChatMsg` interface: `{id, role, text,
ephemeral?, functionName?, functionArgs?}`.  The loosely typed
`functionArgs: any` payload is modelled as an opaque optional string
(the handlers never inspect it). -/
structure ChatMsg where
  id : String
  role : Role
  text : String
  ephemeral : Bool := false
  functionName : Option String := none
  functionArgs : Option String := none
deriving DecidableEq, Repr

/-- Transport states, from `TransportStateEnum` of `@pipecat-ai/client-js`;
only `READY`, `CONNECTED` and `DISCONNECTED` are distinguished by the code,
every other value is transient. -/
inductive TransportState where
  | disconnected
  | initializing
  | connecting
  | connected
  | ready
deriving DecidableEq, Repr

/-- The check `state === TransportStateEnum.READY || state === TransportStateEnum.CONNECTED`. -/
def TransportState.isConnectedState (st : TransportState) : Bool :=
  st == .ready || st == .connected

/-- Model of `crypto.randomUUID()`: injective in a freshness counter. -/
def uuidStr (n : Nat) : String :=
  "uuid-" ++ String.mk (List.replicate n 'x')

/-- JavaScript truthiness of an optional string: `undefined` and `""`
are falsy, every other string is truthy. -/
def jsTruthy : Option String → Bool
  | none => false
  | some s => !(s == "")

/-- JavaScript `a || b` on optional strings. -/
def jsOr (a b : Option String) : Option String :=
  if jsTruthy a then a else b

/-! ## MessagePane state and handlers -/

/-- The `MessagePane` component state: `msgs`, `botStream`,
`isWaitingForResponse`, plus the freshness counter feeding
`crypto.randomUUID()`. -/
structure PaneState where
  msgs : List ChatMsg
  botStream : String
  isWaitingForResponse : Bool
  nextId : Nat
deriving DecidableEq, Repr

/-- The initial `MessagePane` state: `useState<ChatMsg[]>([])`,
`useState("")`, `useState(false)`. -/
def PaneState.init : PaneState :=
  { msgs := [], botStream := "", isWaitingForResponse := false, nextId := 0 }

/-- The predicate `m.role === "user" && m.ephemeral` used by the
`UserTranscript` handler's filter. -/
def isEphemeralUser (m : ChatMsg) : Bool :=
  m.role == .user && m.ephemeral

/-- The predicate `m.role === "assistant" && m.ephemeral` used by the
`BotTranscript` handler's filter. -/
def isEphemeralAssistant (m : ChatMsg) : Bool :=
  m.role == .assistant && m.ephemeral

/-- The `RTVIEvent.UserTranscript` handler: drop any ephemeral user entry;
if `data.final`, set the waiting indicator and append a permanent user
entry with a fresh id, else append the `"ephemeral-user"`-sentinel
ephemeral entry carrying the partial text. -/
def userTranscriptHandler (text : String) (final : Bool) (s : PaneState) : PaneState :=
  let withoutEphemeral := s.msgs.filter (fun m => !(isEphemeralUser m))
  if final then
    { s with
      isWaitingForResponse := true
      msgs := withoutEphemeral ++ [{ id := uuidStr s.nextId, role := .user, text := text }]
      nextId := s.nextId + 1 }
  else
    { s with
      msgs := withoutEphemeral ++
        [{ id := "ephemeral-user", role := .user, text := text, ephemeral := true }] }

/-- The loosely-typed payload of an `LLMFunctionCall` event, covering the
field-name variants the three handlers probe (`name`, `function_name`,
`function`, `args`, `arguments`). -/
structure FCData where
  name : Option String := none
  function_name : Option String := none
  function : Option String := none
  args : Option String := none
  arguments : Option String := none
deriving DecidableEq, Repr

/-- First registered `RTVIEvent.LLMFunctionCall` handler: clears the
waiting indicator and unconditionally appends a function entry using
`data.function_name` (printed as `undefined` when absent, as JS string
interpolation does). -/
def fcHandler1 (d : FCData) (s : PaneState) : PaneState :=
  { s with
    isWaitingForResponse := false
    msgs := s.msgs ++
      [{ id := uuidStr s.nextId, role := .function,
         text := "Calling function: " ++ d.function_name.getD "undefined",
         functionName := d.function_name, functionArgs := d.args }]
    nextId := s.nextId + 1 }

/-- Second registered `RTVIEvent.LLMFunctionCall` handler: computes
`data.name || data.function_name` and `data.args || data.arguments`, and
appends a function entry only when the name is truthy. -/
def fcHandler2 (d : FCData) (s : PaneState) : PaneState :=
  let functionName := jsOr d.name d.function_name
  let functionArgs := jsOr d.args d.arguments
  if jsTruthy functionName then
    { s with
      isWaitingForResponse := false
      msgs := s.msgs ++
        [{ id := uuidStr s.nextId, role := .function,
           text := "Calling function: " ++ functionName.getD "",
           functionName := functionName, functionArgs := functionArgs }]
      nextId := s.nextId + 1 }
  else
    s

/-- Third registered `RTVIEvent.LLMFunctionCall` handler: falls back
through `function_name`, `name`, `function` and finally `"unknown"`,
clears the waiting indicator and unconditionally appends a function
entry. -/
def fcHandler3 (d : FCData) (s : PaneState) : PaneState :=
  let functionName := jsOr d.function_name (jsOr d.name (jsOr d.function (some "unknown")))
  { s with
    isWaitingForResponse := false
    msgs := s.msgs ++
      [{ id := uuidStr s.nextId, role := .function,
         text := "Calling function: " ++ functionName.getD "",
         functionName := functionName, functionArgs := jsOr d.args d.arguments }]
    nextId := s.nextId + 1 }

/-- A single delivered `LLMFunctionCall` event fires all three registered
handlers, in registration order. -/
def llmFunctionCallEvent (d : FCData) (s : PaneState) : PaneState :=
  fcHandler3 d (fcHandler2 d (fcHandler1 d s))

/-- The `RTVIEvent.BotLlmText` handler: clear the waiting indicator and
append the fragment to the streaming buffer (never to `msgs`). -/
def botLlmTextHandler (text : String) (s : PaneState) : PaneState :=
  { s with
    isWaitingForResponse := false
    botStream := s.botStream ++ text }

/-- The `RTVIEvent.BotTranscript` handler: clear the waiting indicator,
drop any ephemeral assistant entry, append a permanent assistant entry
with the final text, and reset the streaming buffer. -/
def botTranscriptHandler (text : String) (s : PaneState) : PaneState :=
  { s with
    isWaitingForResponse := false
    msgs := s.msgs.filter (fun m => !(isEphemeralAssistant m)) ++
      [{ id := uuidStr s.nextId, role := .assistant, text := text }]
    botStream := ""
    nextId := s.nextId + 1 }

/-- The `RTVIEvent.Error` handler of `MessagePane`: clear the waiting
indicator and append a permanent system entry describing the error. -/
def errorHandler (msg : Option String) (s : PaneState) : PaneState :=
  { s with
    isWaitingForResponse := false
    msgs := s.msgs ++
      [{ id := uuidStr s.nextId, role := .system,
         text := "Error: " ++ msg.getD "Unknown error" }]
    nextId := s.nextId + 1 }

/-- The `clearMessages` callback: `setMsgs([]); setBotStream(""); setIsWaitingForResponse(false)`. -/
def clearMessages (s : PaneState) : PaneState :=
  { s with msgs := [], botStream := "", isWaitingForResponse := false }

/-- The events `MessagePane` reacts to: the five RTVI events it
subscribes to, the new-conversation request, and a change of the
transport state (the reset effect watches the latter two). -/
inductive PaneEvent where
  | userTranscript (text : String) (final : Bool)
  | llmFunctionCall (d : FCData)
  | botLlmText (text : String)
  | botTranscript (text : String)
  | errorEvent (msg : Option String)
  | newConversation
  | transportChanged (st : TransportState)
deriving DecidableEq, Repr

/-- One `MessagePane` step: dispatch an event to its handler.  A
new-conversation request runs `clearMessages` (the reset effect keyed on
`onNewConversation`), and a transport change into `READY`/`CONNECTED`
runs `clearMessages` (the reset effect keyed on `transportState`). -/
def stepPane : PaneEvent → PaneState → PaneState
  | .userTranscript t f => userTranscriptHandler t f
  | .llmFunctionCall d => llmFunctionCallEvent d
  | .botLlmText t => botLlmTextHandler t
  | .botTranscript t => botTranscriptHandler t
  | .errorEvent m => errorHandler m
  | .newConversation => clearMessages
  | .transportChanged st => fun s =>
      if st == .ready || st == .connected then clearMessages s else s

/-- Run a list of events through `MessagePane`, oldest first. -/
def runPane (evs : List PaneEvent) (s : PaneState) : PaneState :=
  evs.foldl (fun s e => stepPane e s) s

/-- Number of permanent (non-ephemeral) user entries in a list. -/
def permUserCount (l : List ChatMsg) : Nat :=
  (l.filter (fun m => m.role == .user && !m.ephemeral)).length

/-- Number of permanent user entries carrying a given text. -/
def permUserWithTextCount (l : List ChatMsg) (t : String) : Nat :=
  (l.filter (fun m => m.role == .user && !m.ephemeral && m.text == t)).length

/-- Number of ephemeral user entries in a list. -/
def ephUserCount (l : List ChatMsg) : Nat :=
  (l.filter isEphemeralUser).length

/-- Number of permanent (non-ephemeral) assistant entries in a list. -/
def permAssistantCount (l : List ChatMsg) : Nat :=
  (l.filter (fun m => m.role == .assistant && !m.ephemeral)).length

/-- Number of ephemeral assistant entries in a list. -/
def ephAssistantCount (l : List ChatMsg) : Nat :=
  (l.filter isEphemeralAssistant).length

/-- Number of function-call entries in a list. -/
def functionCount (l : List ChatMsg) : Nat :=
  (l.filter (fun m => m.role == .function)).length

/-! ## MicDock state machine -/

/-- The push-to-talk vs hands-free mode of the mic dock
(`useState<"push" | "handsfree">`). -/
inductive MicMode where
  | push
  | handsfree
deriving DecidableEq, Repr

/-- The `MicDock` component state: the transport state reported by the
client, the mic-enabled flag owned by the client, and the local
`botTalking`, `connecting`, `connectedOnce`, `mode`, `autoDuck` states
and the `pressedRef` ref.  `connectAttempts` counts invocations of
`startOrConnect` (each starts one bootstrap/signaling attempt). -/
structure MicState where
  transport : TransportState
  micEnabled : Bool
  botTalking : Bool
  connecting : Bool
  connectedOnce : Bool
  mode : MicMode
  autoDuck : Bool
  pressed : Bool
  connectAttempts : Nat
deriving DecidableEq, Repr

/-- The body of `startOrConnect` up to its `await`: sets the local
connecting flag and starts exactly one connect attempt (via
`startBotAndConnect` or `connect`, depending on configuration).  The
source has no guard: it never checks the transport state or the
connecting flag before starting the attempt. -/
def startOrConnectBegin (s : MicState) : MicState :=
  { s with connecting := true, connectAttempts := s.connectAttempts + 1 }

/-- The settlement of `startOrConnect`'s promise: `setConnectedOnce(true)`
on success, and the `finally` clause clears the connecting flag. -/
def connectSettle (ok : Bool) (s : MicState) : MicState :=
  { s with connecting := false, connectedOnce := s.connectedOnce || ok }

/-- The effect that clears `connecting` whenever the transport settles to
`READY`, `CONNECTED` or `DISCONNECTED` (dependency: `state`). -/
def clearConnectingEffect (s : MicState) : MicState :=
  if s.transport == .ready || s.transport == .connected || s.transport == .disconnected then
    { s with connecting := false }
  else s

/-- The hands-free effect: keep the mic open when connected in hands-free
mode (dependencies: `mode`, `isConnectedState`). -/
def handsFreeEffect (s : MicState) : MicState :=
  if s.mode == .handsfree && s.transport.isConnectedState then
    { s with micEnabled := true }
  else s

/-- The auto-duck effect: in hands-free mode while connected with
auto-duck on, set the mic to the negation of the bot-speaking flag
(dependencies: `botTalking`, `autoDuck`, `mode`, `isConnectedState`). -/
def autoDuckEffect (s : MicState) : MicState :=
  if s.mode != .handsfree || !s.transport.isConnectedState then s
  else if !s.autoDuck then s
  else { s with micEnabled := !s.botTalking }

/-- The `onPress` handler: while not connected, start a connect attempt; in
hands-free mode do nothing; otherwise record the press and enable the
mic. -/
def onPress (s : MicState) : MicState :=
  if !s.transport.isConnectedState then startOrConnectBegin s
  else if s.mode == .handsfree then s
  else { s with pressed := true, micEnabled := true }

/-- The `onRelease` handler: no effect in hands-free mode; otherwise clear the
pressed ref (a 120ms timeout is scheduled separately, see
`releaseTimeout`). -/
def onRelease (s : MicState) : MicState :=
  if s.mode == .handsfree then s
  else { s with pressed := false }

/-- The body of the 120ms timeout scheduled by `onRelease`:
`if (!pressedRef.current) enableMic(false)`. -/
def releaseTimeout (s : MicState) : MicState :=
  if s.pressed then s else { s with micEnabled := false }

/-- The mic button's `onClick`: while not connected, start a connect
attempt instead of toggling; otherwise toggle the mic (the source's two
connected branches are identical). -/
def micButtonClick (s : MicState) : MicState :=
  if !s.transport.isConnectedState then startOrConnectBegin s
  else { s with micEnabled := !s.micEnabled }

/-- The dedicated connect/disconnect button: disabled while
`!isConnectedState && connecting`; when connected it calls
`disconnect()` (no local state change; the transport reports the
transition separately); otherwise it starts a connect attempt. -/
def connectButtonClick (s : MicState) : MicState :=
  if !s.transport.isConnectedState && s.connecting then s
  else if s.transport.isConnectedState then s
  else startOrConnectBegin s

/-- The events `MicDock` reacts to: the pointer gestures on the mic
button, the release-grace timeout, the two buttons, the bot-speaking
events, the settings toggles, transport-state changes, the error event
and the settlement of a connect attempt. -/
inductive MicEvent where
  | press
  | release
  | releaseTimeout
  | click
  | connectButton
  | botStartedSpeaking
  | botStoppedSpeaking
  | setAutoDuck (b : Bool)
  | setMode (m : MicMode)
  | transportChanged (st : TransportState)
  | errorEvent
  | connectSettled (ok : Bool)
deriving DecidableEq, Repr

/-- One `MicDock` step: dispatch the event to its handler, then run the
React effects whose dependencies changed, in registration order
(clear-connecting, hands-free, auto-duck).  A `useState` set to an
unchanged value triggers no re-render, so no effects run in that case. -/
def stepMic : MicEvent → MicState → MicState
  | .press => onPress
  | .release => onRelease
  | .releaseTimeout => releaseTimeout
  | .click => micButtonClick
  | .connectButton => connectButtonClick
  | .botStartedSpeaking => fun s =>
      if s.botTalking then s else autoDuckEffect { s with botTalking := true }
  | .botStoppedSpeaking => fun s =>
      if !s.botTalking then s else autoDuckEffect { s with botTalking := false }
  | .setAutoDuck b => fun s =>
      if s.autoDuck == b then s else autoDuckEffect { s with autoDuck := b }
  | .setMode m => fun s =>
      if s.mode == m then s else autoDuckEffect (handsFreeEffect { s with mode := m })
  | .transportChanged st => fun s =>
      if s.transport == st then s
      else
        let s' := clearConnectingEffect { s with transport := st }
        if s.transport.isConnectedState == st.isConnectedState then s'
        else autoDuckEffect (handsFreeEffect s')
  | .errorEvent => fun s => { s with connecting := false }
  | .connectSettled ok => connectSettle ok

/-! ## Identity store (`useThreadAndUserId`) -/

/-- A model of `localStorage` holding the two identity keys; when
`available` is false every operation throws (as browsers do when
storage access is denied). -/
structure StorageModel where
  available : Bool
  threadKey : Option String := none
  userKey : Option String := none
deriving DecidableEq, Repr

/-- Model of `localStorage.getItem`: returns the stored value or `null`; throws
when storage is unavailable. -/
def lsGetItem (st : StorageModel) (key : String) : Except String (Option String) :=
  if st.available then
    .ok (if key == "voice-thread-id" then st.threadKey
         else if key == "voice-user-id" then st.userKey
         else none)
  else .error "SecurityError"

/-- Model of `localStorage.setItem`; throws when storage is unavailable. -/
def lsSetItem (st : StorageModel) (key val : String) : Except String StorageModel :=
  if st.available then
    .ok (if key == "voice-thread-id" then { st with threadKey := some val }
         else if key == "voice-user-id" then { st with userKey := some val }
         else st)
  else .error "SecurityError"

/-- The `useState` initializer for `threadId` (browser path): read the
stored id, return it if truthy, else generate a fresh id and persist it.
The source wraps none of the storage accesses in try/catch, so a storage
exception propagates out of the initializer. -/
def threadIdInit (g : Nat) (st : StorageModel) :
    Except String (String × Nat × StorageModel) := do
  let stored ← lsGetItem st "voice-thread-id"
  if jsTruthy stored then
    .ok (stored.getD "", g, st)
  else
    let newId := uuidStr g
    let st' ← lsSetItem st "voice-thread-id" newId
    .ok (newId, g + 1, st')

/-- The `useState` initializer for `userId` (browser path), analogous to
`threadIdInit`. -/
def userIdInit (g : Nat) (st : StorageModel) :
    Except String (String × Nat × StorageModel) := do
  let stored ← lsGetItem st "voice-user-id"
  if jsTruthy stored then
    .ok (stored.getD "", g, st)
  else
    let newId := uuidStr g
    let st' ← lsSetItem st "voice-user-id" newId
    .ok (newId, g + 1, st')

/-- The `useThreadAndUserId` initialization (getOrCreate): run both
initializers in order, returning the identifier pair, the advanced
freshness counter and the updated storage. -/
def useThreadAndUserIdInit (g : Nat) (st : StorageModel) :
    Except String ((String × String) × Nat × StorageModel) := do
  let (t, g1, st1) ← threadIdInit g st
  let (u, g2, st2) ← userIdInit g1 st1
  .ok ((t, u), g2, st2)

/-- The `startNewConversation` callback (rotate): generate two brand-new identifiers,
persist both, update the hook state to the new pair and return it.  The
returned pair doubles as the new hook state (`setThreadId`/`setUserId`
are called with exactly these values). -/
def startNewConversation (g : Nat) (st : StorageModel) :
    Except String ((String × String) × Nat × StorageModel) := do
  let newThreadId := uuidStr g
  let newUserId := uuidStr (g + 1)
  let st1 ← lsSetItem st "voice-thread-id" newThreadId
  let st2 ← lsSetItem st1 "voice-user-id" newUserId
  .ok ((newThreadId, newUserId), g + 2, st2)

/-! ## Reachable `MessagePane` states -/

/-- The `MessagePane` states reachable from the initial state through the
event handlers. -/
inductive PaneReachable : PaneState → Prop where
  | init : PaneReachable PaneState.init
  | step (e : PaneEvent) {s : PaneState} :
      PaneReachable s → PaneReachable (stepPane e s)

/-! ## List helper lemmas -/

theorem filter_filter_imp {p q : ChatMsg → Bool} (h : ∀ a, q a = true → p a = true) :
    ∀ l : List ChatMsg, (l.filter p).filter q = l.filter q := by
  intro l
  induction l with
  | nil => rfl
  | cons a l ih =>
    by_cases hq : q a = true
    · have hp := h a hq
      simp [List.filter_cons, hp, hq, ih]
    · have hq' : q a = false := by revert hq; cases q a <;> simp
      by_cases hp : p a = true
      · simp [List.filter_cons, hp, hq', ih]
      · have hp' : p a = false := by revert hp; cases p a <;> simp
        simp [List.filter_cons, hp', hq', ih]

theorem filter_filter_disjoint {p q : ChatMsg → Bool} (h : ∀ a, p a = true → q a = false) :
    ∀ l : List ChatMsg, (l.filter p).filter q = [] := by
  intro l
  induction l with
  | nil => rfl
  | cons a l ih =>
    by_cases hp : p a = true
    · simp [List.filter_cons, hp, h a hp, ih]
    · have hp' : p a = false := by revert hp; cases p a <;> simp
      simp [List.filter_cons, hp', ih]

/-- Permanent user entries survive the removal of ephemeral user entries. -/
theorem permUser_imp_notEph :
    ∀ a : ChatMsg, (a.role == Role.user && !a.ephemeral) = true →
      (!(isEphemeralUser a)) = true := by
  intro a ha
  simp only [Bool.and_eq_true, beq_iff_eq, Bool.not_eq_true'] at ha
  simp [isEphemeralUser, ha.1, ha.2]

/-- Permanent assistant entries survive the removal of ephemeral
assistant entries. -/
theorem permAssistant_imp_notEph :
    ∀ a : ChatMsg, (a.role == Role.assistant && !a.ephemeral) = true →
      (!(isEphemeralAssistant a)) = true := by
  intro a ha
  simp only [Bool.and_eq_true, beq_iff_eq, Bool.not_eq_true'] at ha
  simp [isEphemeralAssistant, ha.1, ha.2]

/-! ## `MessagePane` run lemmas -/

/-- A run of non-final user-transcript fragments leaves the
ephemeral-user-free part of the list, the waiting indicator and the
freshness counter unchanged. -/
theorem runNonFinalUser (texts : List String) (s : PaneState) :
    (runPane (texts.map fun x => .userTranscript x false) s).msgs.filter
        (fun m => !(isEphemeralUser m)) = s.msgs.filter (fun m => !(isEphemeralUser m))
    ∧ (runPane (texts.map fun x => .userTranscript x false) s).nextId = s.nextId := by
  induction texts generalizing s with
  | nil => exact ⟨rfl, rfl⟩
  | cons x texts ih =>
    have hstep :
        (stepPane (.userTranscript x false) s).msgs.filter (fun m => !(isEphemeralUser m)) =
          s.msgs.filter (fun m => !(isEphemeralUser m)) := by
      show ((userTranscriptHandler x false s).msgs.filter fun m => !(isEphemeralUser m)) = _
      simp only [userTranscriptHandler, if_neg (by simp : ¬(false = true))]
      rw [List.filter_append]
      rw [filter_filter_imp (p := fun m => !(isEphemeralUser m))
        (q := fun m => !(isEphemeralUser m)) (fun a ha => ha)]
      simp [isEphemeralUser]
    have h2 : (stepPane (.userTranscript x false) s).nextId = s.nextId := by
      show (userTranscriptHandler x false s).nextId = s.nextId
      simp [userTranscriptHandler]
    have := ih (stepPane (.userTranscript x false) s)
    refine ⟨?_, ?_⟩
    · show (runPane (List.map (fun x => PaneEvent.userTranscript x false) texts)
        (stepPane (.userTranscript x false) s)).msgs.filter (fun m => !(isEphemeralUser m)) = _
      rw [this.1, hstep]
    · show (runPane (List.map (fun x => PaneEvent.userTranscript x false) texts)
        (stepPane (.userTranscript x false) s)).nextId = _
      rw [this.2, h2]

/-- A run of bot text fragments never touches the entry list or the
freshness counter. -/
theorem runBotFragments (texts : List String) (s : PaneState) :
    (runPane (texts.map fun x => .botLlmText x) s).msgs = s.msgs
    ∧ (runPane (texts.map fun x => .botLlmText x) s).nextId = s.nextId := by
  induction texts generalizing s with
  | nil => exact ⟨rfl, rfl⟩
  | cons x texts ih =>
    have := ih (stepPane (.botLlmText x) s)
    exact ⟨this.1, this.2⟩

theorem runPane_append (a b : List PaneEvent) (s : PaneState) :
    runPane (a ++ b) s = runPane b (runPane a s) :=
  List.foldl_append _ _ _ _

/-! ## Claim theorems: transcript aggregation -/

/-- C1 (counterexample): the claim quantifies over any entry list, but
when the starting list already holds a permanent user entry with the
final text, the list after the final event holds two permanent user
entries with that text, not exactly one. -/
theorem userTranscript_any_list_counterexample :
    permUserWithTextCount
      (runPane [PaneEvent.userTranscript "hi" true]
        { msgs := [{ id := "a", role := .user, text := "hi" }],
          botStream := "", isWaitingForResponse := false, nextId := 0 }).msgs "hi" = 2 := by
  decide

/-- C1 (amended): for every sequence of non-final user-transcript
fragments followed by exactly one final fragment, processed from any
entry list, the result is the starting list with its ephemeral user
entries removed and exactly one new permanent user entry with the final
text appended; the result holds zero ephemeral user entries, exactly one
more permanent user entry than the starting list, and the waiting
indicator is true. -/
theorem userTranscript_sequence_appends_one (s : PaneState) (texts : List String) (t : String) :
    (runPane (texts.map (fun x => PaneEvent.userTranscript x false) ++
        [PaneEvent.userTranscript t true]) s).msgs
      = s.msgs.filter (fun m => !(isEphemeralUser m)) ++
          [{ id := uuidStr s.nextId, role := .user, text := t }]
    ∧ ephUserCount (runPane (texts.map (fun x => PaneEvent.userTranscript x false) ++
        [PaneEvent.userTranscript t true]) s).msgs = 0
    ∧ permUserCount (runPane (texts.map (fun x => PaneEvent.userTranscript x false) ++
        [PaneEvent.userTranscript t true]) s).msgs = permUserCount s.msgs + 1
    ∧ (runPane (texts.map (fun x => PaneEvent.userTranscript x false) ++
        [PaneEvent.userTranscript t true]) s).isWaitingForResponse = true := by
  rw [runPane_append]
  have hm := runNonFinalUser texts s
  set mid := runPane (texts.map fun x => PaneEvent.userTranscript x false) s with hmid
  have hrun : runPane [PaneEvent.userTranscript t true] mid = userTranscriptHandler t true mid :=
    rfl
  rw [hrun]
  have hmsgs : (userTranscriptHandler t true mid).msgs
      = s.msgs.filter (fun m => !(isEphemeralUser m)) ++
        [{ id := uuidStr s.nextId, role := .user, text := t }] := by
    simp only [userTranscriptHandler, if_pos]
    rw [hm.1, hm.2]
  refine ⟨hmsgs, ?_, ?_, by simp [userTranscriptHandler]⟩
  · show ephUserCount (userTranscriptHandler t true mid).msgs = 0
    rw [hmsgs]
    unfold ephUserCount
    rw [List.filter_append]
    rw [filter_filter_disjoint (p := fun m => !(isEphemeralUser m)) (q := isEphemeralUser)
      (by intro a ha
          have ha' : (!isEphemeralUser a) = true := ha
          cases h : isEphemeralUser a
          · rfl
          · rw [h] at ha'
            simp at ha')]
    simp [isEphemeralUser]
  · show permUserCount (userTranscriptHandler t true mid).msgs = permUserCount s.msgs + 1
    rw [hmsgs]
    unfold permUserCount
    rw [List.filter_append, filter_filter_imp permUser_imp_notEph]
    simp

/-- C2: for every sequence of bot text-fragment events followed by
exactly one bot final-transcript event, after the final event the
streaming buffer is empty, the waiting indicator is false, and the entry
list is the starting list (ephemeral assistant entries removed) with
exactly one new permanent assistant entry carrying the final text; each
fragment event only appends its text to the buffer, leaves the entry
list untouched and clears the waiting indicator. -/
theorem botTranscript_sequence_appends_one (s : PaneState) (texts : List String) (t : String) :
    (runPane (texts.map (fun x => PaneEvent.botLlmText x) ++
        [PaneEvent.botTranscript t]) s).botStream = ""
    ∧ (runPane (texts.map (fun x => PaneEvent.botLlmText x) ++
        [PaneEvent.botTranscript t]) s).isWaitingForResponse = false
    ∧ (runPane (texts.map (fun x => PaneEvent.botLlmText x) ++
        [PaneEvent.botTranscript t]) s).msgs
      = s.msgs.filter (fun m => !(isEphemeralAssistant m)) ++
          [{ id := uuidStr s.nextId, role := .assistant, text := t }]
    ∧ permAssistantCount (runPane (texts.map (fun x => PaneEvent.botLlmText x) ++
        [PaneEvent.botTranscript t]) s).msgs = permAssistantCount s.msgs + 1
    ∧ (∀ (s₂ : PaneState) (x : String),
        (stepPane (.botLlmText x) s₂).msgs = s₂.msgs
        ∧ (stepPane (.botLlmText x) s₂).botStream = s₂.botStream ++ x
        ∧ (stepPane (.botLlmText x) s₂).isWaitingForResponse = false) := by
  rw [runPane_append]
  have hb := runBotFragments texts s
  set mid := runPane (texts.map fun x => PaneEvent.botLlmText x) s with hmid
  have hrun : runPane [PaneEvent.botTranscript t] mid = botTranscriptHandler t mid := rfl
  rw [hrun]
  have hmsgs : (botTranscriptHandler t mid).msgs
      = s.msgs.filter (fun m => !(isEphemeralAssistant m)) ++
        [{ id := uuidStr s.nextId, role := .assistant, text := t }] := by
    simp only [botTranscriptHandler]
    rw [hb.1, hb.2]
  refine ⟨rfl, rfl, hmsgs, ?_, fun s₂ x => ⟨rfl, rfl, rfl⟩⟩
  show permAssistantCount (botTranscriptHandler t mid).msgs = permAssistantCount s.msgs + 1
  rw [hmsgs]
  unfold permAssistantCount
  rw [List.filter_append, filter_filter_imp permAssistant_imp_notEph]
  simp

/-- C3 (code behavior at the failing input): a single `LLMFunctionCall`
event with payload `{function_name: "f", args: "a"}` fires all three
registered handlers and appends three function-call entries, not one. -/
theorem llmFunctionCall_triple_insert :
    functionCount ((llmFunctionCallEvent { function_name := some "f", args := some "a" }
      PaneState.init).msgs) = 3 := by
  decide

/-- C6: a new-conversation request and a transport transition into
`READY` or `CONNECTED` each clear the whole entry list, reset the
streaming buffer to the empty string and clear the waiting indicator,
whatever the prior state held. -/
theorem reset_clears_all (s : PaneState) :
    ((stepPane .newConversation s).msgs = []
      ∧ (stepPane .newConversation s).botStream = ""
      ∧ (stepPane .newConversation s).isWaitingForResponse = false)
    ∧ ((stepPane (.transportChanged .ready) s).msgs = []
      ∧ (stepPane (.transportChanged .ready) s).botStream = ""
      ∧ (stepPane (.transportChanged .ready) s).isWaitingForResponse = false)
    ∧ ((stepPane (.transportChanged .connected) s).msgs = []
      ∧ (stepPane (.transportChanged .connected) s).botStream = ""
      ∧ (stepPane (.transportChanged .connected) s).isWaitingForResponse = false) := by
  exact ⟨⟨rfl, rfl, rfl⟩, ⟨rfl, rfl, rfl⟩, ⟨rfl, rfl, rfl⟩⟩

/-! ## Claim theorems: no ephemeral assistant entry -/

theorem noEphA_filter {l : List ChatMsg} (p : ChatMsg → Bool)
    (h : ∀ m ∈ l, isEphemeralAssistant m = false) :
    ∀ m ∈ l.filter p, isEphemeralAssistant m = false := by
  intro m hm
  exact h m (List.mem_filter.mp hm).1

theorem noEphA_append {l : List ChatMsg} {x : ChatMsg}
    (h : ∀ m ∈ l, isEphemeralAssistant m = false) (hx : isEphemeralAssistant x = false) :
    ∀ m ∈ l ++ [x], isEphemeralAssistant m = false := by
  intro m hm
  rcases List.mem_append.mp hm with h1 | h2
  · exact h m h1
  · rw [List.mem_singleton.mp h2]
    exact hx

/-- Every `MessagePane` handler preserves the absence of ephemeral
assistant entries: bot partials go to the separate buffer, and every
entry appended to the list is either non-assistant or permanent. -/
theorem stepPane_preserves_noEphA (e : PaneEvent) {s : PaneState}
    (h : ∀ m ∈ s.msgs, isEphemeralAssistant m = false) :
    ∀ m ∈ (stepPane e s).msgs, isEphemeralAssistant m = false := by
  cases e with
  | userTranscript t f =>
    show ∀ m ∈ (userTranscriptHandler t f s).msgs, _
    cases f with
    | true =>
      simp only [userTranscriptHandler, if_pos]
      exact noEphA_append (noEphA_filter _ h) rfl
    | false =>
      simp only [userTranscriptHandler, if_neg (by simp : ¬(false = true))]
      exact noEphA_append (noEphA_filter _ h) rfl
  | llmFunctionCall d =>
    show ∀ m ∈ (fcHandler3 d (fcHandler2 d (fcHandler1 d s))).msgs, _
    have h1 : ∀ m ∈ (fcHandler1 d s).msgs, isEphemeralAssistant m = false :=
      noEphA_append h rfl
    have h2 : ∀ m ∈ (fcHandler2 d (fcHandler1 d s)).msgs, isEphemeralAssistant m = false := by
      unfold fcHandler2
      by_cases ht : jsTruthy (jsOr d.name d.function_name) = true
      · simp only [ht, if_pos]
        exact noEphA_append h1 rfl
      · have ht' : jsTruthy (jsOr d.name d.function_name) = false := by
          revert ht; cases jsTruthy (jsOr d.name d.function_name) <;> simp
        simp only [ht']
        exact h1
    exact noEphA_append h2 rfl
  | botLlmText t => exact h
  | botTranscript t =>
    show ∀ m ∈ (botTranscriptHandler t s).msgs, _
    exact noEphA_append (noEphA_filter _ h) rfl
  | errorEvent m => exact noEphA_append h rfl
  | newConversation =>
    intro m hm
    simp [stepPane, clearMessages] at hm
  | transportChanged st =>
    show ∀ m ∈ (if st == .ready || st == .connected then clearMessages s else s).msgs, _
    by_cases hc : (st == TransportState.ready || st == TransportState.connected) = true
    · simp only [hc, if_pos]
      intro m hm
      simp [clearMessages] at hm
    · have hc' : (st == TransportState.ready || st == TransportState.connected) = false := by
        revert hc
        cases (st == TransportState.ready || st == TransportState.connected) <;> simp
      simp only [hc', Bool.false_eq_true, if_neg, not_false_iff]
      exact h

/-- C10: in every reachable `MessagePane` state the entry list holds no
ephemeral assistant entry (bot partial text lives only in the separate
streaming buffer), so the ephemeral-assistant filter of the
bot-final-transcript handler removes nothing. -/
theorem no_ephemeral_assistant_invariant (s : PaneState) (h : PaneReachable s) :
    (∀ m ∈ s.msgs, isEphemeralAssistant m = false)
    ∧ s.msgs.filter (fun m => !(isEphemeralAssistant m)) = s.msgs := by
  have key : ∀ m ∈ s.msgs, isEphemeralAssistant m = false := by
    induction h with
    | init =>
      intro m hm
      simp [PaneState.init] at hm
    | step e hr ih => exact stepPane_preserves_noEphA e ih
  refine ⟨key, ?_⟩
  have gen : ∀ l : List ChatMsg, (∀ m ∈ l, isEphemeralAssistant m = false) →
      l.filter (fun m => !(isEphemeralAssistant m)) = l := by
    intro l
    induction l with
    | nil => intro _; rfl
    | cons a l ih =>
      intro hl
      have ha := hl a (List.mem_cons_self a l)
      have hl' : ∀ m ∈ l, isEphemeralAssistant m = false := fun m hm =>
        hl m (List.mem_cons_of_mem a hm)
      simp [List.filter_cons, ha, ih hl']
  exact gen s.msgs key

/-- Witness for C10 at a concrete reachable state. -/
theorem no_ephemeral_assistant_invariant_witness :
    (∀ m ∈ (stepPane (.userTranscript "hi" false) PaneState.init).msgs,
        isEphemeralAssistant m = false)
    ∧ (stepPane (.userTranscript "hi" false) PaneState.init).msgs.filter
        (fun m => !(isEphemeralAssistant m))
      = (stepPane (.userTranscript "hi" false) PaneState.init).msgs :=
  no_ephemeral_assistant_invariant _ (PaneReachable.step _ PaneReachable.init)

/-! ## Claim theorems: connection and mic-mode state machine -/

/-- C4 (counterexample): with the transport in the transient
`CONNECTING` state and one connect attempt already outstanding, a mic
press starts a second attempt — `startOrConnect` is not a no-op while
connecting. -/
theorem press_while_connecting_counterexample :
    (stepMic .press
      { transport := .connecting, micEnabled := false, botTalking := false, connecting := true,
        connectedOnce := false, mode := .push, autoDuck := false, pressed := false,
        connectAttempts := 1 }).connectAttempts = 2 := by
  decide

/-- C4 (amended): while the transport is `READY`/`CONNECTED`, neither a
mic press, a mic tap nor the connect button starts a connect attempt,
and the dedicated connect button is inert while a connect is in
progress; but `startOrConnect` itself has no guard, so a mic press or
tap while the transport is in the transient `CONNECTING` state starts a
second connect attempt. -/
theorem connect_guard_amended (s : MicState) :
    (s.transport.isConnectedState = true →
      (stepMic .press s).connectAttempts = s.connectAttempts
      ∧ (stepMic .click s).connectAttempts = s.connectAttempts
      ∧ (stepMic .connectButton s).connectAttempts = s.connectAttempts
      ∧ (stepMic .press s).connecting = s.connecting)
    ∧ (s.transport.isConnectedState = false → s.connecting = true →
      stepMic .connectButton s = s)
    ∧ (s.transport = .connecting →
      (stepMic .press s).connectAttempts = s.connectAttempts + 1
      ∧ (stepMic .click s).connectAttempts = s.connectAttempts + 1) := by
  refine ⟨?_, ?_, ?_⟩
  · intro h
    cases hm : s.mode <;>
      simp [stepMic, onPress, micButtonClick, connectButtonClick, h, hm]
  · intro h1 h2
    simp [stepMic, connectButtonClick, h1, h2]
  · intro h
    have hc : s.transport.isConnectedState = false := by rw [h]; rfl
    simp [stepMic, onPress, micButtonClick, startOrConnectBegin, hc]

/-- Witness for C4's amended theorem at concrete connected, connecting
and transient states. -/
theorem connect_guard_amended_witness :
    ((stepMic .press
        { transport := .ready, micEnabled := false, botTalking := false, connecting := false,
          connectedOnce := true, mode := .push, autoDuck := false, pressed := false,
          connectAttempts := 1 }).connectAttempts = 1
      ∧ (stepMic .click
        { transport := .ready, micEnabled := false, botTalking := false, connecting := false,
          connectedOnce := true, mode := .push, autoDuck := false, pressed := false,
          connectAttempts := 1 }).connectAttempts = 1
      ∧ (stepMic .connectButton
        { transport := .ready, micEnabled := false, botTalking := false, connecting := false,
          connectedOnce := true, mode := .push, autoDuck := false, pressed := false,
          connectAttempts := 1 }).connectAttempts = 1
      ∧ (stepMic .press
        { transport := .ready, micEnabled := false, botTalking := false, connecting := false,
          connectedOnce := true, mode := .push, autoDuck := false, pressed := false,
          connectAttempts := 1 }).connecting = false)
    ∧ stepMic .connectButton
        { transport := .disconnected, micEnabled := false, botTalking := false, connecting := true,
          connectedOnce := false, mode := .push, autoDuck := false, pressed := false,
          connectAttempts := 1 }
      = { transport := .disconnected, micEnabled := false, botTalking := false, connecting := true,
          connectedOnce := false, mode := .push, autoDuck := false, pressed := false,
          connectAttempts := 1 } :=
  ⟨(connect_guard_amended _).1 (by decide), (connect_guard_amended _).2.1 (by decide) rfl⟩

/-- C5: in hands-free mode while connected with auto-duck on, every
change of the bot-speaking indicator and every enabling of the auto-duck
flag re-evaluates the policy and leaves the mic equal to the negation of
the bot-speaking indicator; in push-to-talk mode the bot-speaking events
never change the mic-enabled state. -/
theorem autoDuck_policy (s : MicState) :
    (s.mode = .handsfree → s.transport.isConnectedState = true → s.autoDuck = true →
      s.botTalking = false →
      (stepMic .botStartedSpeaking s).micEnabled = !(stepMic .botStartedSpeaking s).botTalking)
    ∧ (s.mode = .handsfree → s.transport.isConnectedState = true → s.autoDuck = true →
      s.botTalking = true →
      (stepMic .botStoppedSpeaking s).micEnabled = !(stepMic .botStoppedSpeaking s).botTalking)
    ∧ (s.mode = .handsfree → s.transport.isConnectedState = true → s.autoDuck = false →
      (stepMic (.setAutoDuck true) s).micEnabled = !(stepMic (.setAutoDuck true) s).botTalking)
    ∧ (s.mode = .push →
      (stepMic .botStartedSpeaking s).micEnabled = s.micEnabled
      ∧ (stepMic .botStoppedSpeaking s).micEnabled = s.micEnabled) := by
  refine ⟨?_, ?_, ?_, ?_⟩
  · intro h1 h2 h3 h4
    simp [stepMic, autoDuckEffect, h1, h2, h3, h4]
  · intro h1 h2 h3 h4
    simp [stepMic, autoDuckEffect, h1, h2, h3, h4]
  · intro h1 h2 h3
    simp [stepMic, autoDuckEffect, h1, h2, h3]
  · intro h
    cases hb : s.botTalking <;>
      simp [stepMic, autoDuckEffect, h, hb]

/-- Witness for C5 at concrete connected hands-free and push states. -/
theorem autoDuck_policy_witness :
    (stepMic .botStartedSpeaking
      { transport := .ready, micEnabled := true, botTalking := false, connecting := false,
        connectedOnce := true, mode := .handsfree, autoDuck := true, pressed := false,
        connectAttempts := 1 }).micEnabled
      = !(stepMic .botStartedSpeaking
        { transport := .ready, micEnabled := true, botTalking := false, connecting := false,
          connectedOnce := true, mode := .handsfree, autoDuck := true, pressed := false,
          connectAttempts := 1 }).botTalking
    ∧ (stepMic .botStartedSpeaking
      { transport := .ready, micEnabled := true, botTalking := false, connecting := false,
        connectedOnce := true, mode := .push, autoDuck := true, pressed := false,
        connectAttempts := 1 }).micEnabled = true :=
  ⟨(autoDuck_policy _).1 rfl (by decide) rfl rfl,
    ((autoDuck_policy _).2.2.2 rfl).1⟩

/-- C9 (counterexample): releasing in push-to-talk while the transport
is disconnected is not a no-op — the 120ms grace timeout still disables
the mic (the release handler checks only the mode, never the connection
state). -/
theorem release_disconnected_counterexample :
    (stepMic .releaseTimeout (stepMic .release
      { transport := .disconnected, micEnabled := true, botTalking := false, connecting := false,
        connectedOnce := true, mode := .push, autoDuck := false, pressed := true,
        connectAttempts := 1 })).micEnabled = false := by
  decide

/-- C9 (amended): in push-to-talk while connected, a press enables the
mic and records the hold; a release clears the hold without touching the
mic, and when the 120ms grace timeout fires with no re-press the mic is
disabled, while a re-press before the timeout keeps it enabled; a tap on
the control while disconnected starts a connect attempt and leaves the
mic untouched.  Releases behave identically whatever the connection
state: the grace timeout after a release disables the mic even while
disconnected. -/
theorem pushToTalk_amended (s : MicState) :
    (s.mode = .push → s.transport.isConnectedState = true →
      (stepMic .press s).micEnabled = true ∧ (stepMic .press s).pressed = true)
    ∧ (s.mode = .push →
      (stepMic .release s).pressed = false
      ∧ (stepMic .release s).micEnabled = s.micEnabled
      ∧ (stepMic .releaseTimeout (stepMic .release s)).micEnabled = false)
    ∧ (s.mode = .push → s.transport.isConnectedState = true →
      (stepMic .releaseTimeout (stepMic .press (stepMic .release s))).micEnabled = true)
    ∧ (s.transport.isConnectedState = false →
      (stepMic .click s).connectAttempts = s.connectAttempts + 1
      ∧ (stepMic .click s).micEnabled = s.micEnabled) := by
  refine ⟨?_, ?_, ?_, ?_⟩
  · intro h1 h2
    simp [stepMic, onPress, h1, h2]
  · intro h1
    simp [stepMic, onRelease, releaseTimeout, h1]
  · intro h1 h2
    simp [stepMic, onPress, onRelease, releaseTimeout, h1, h2]
  · intro h
    simp [stepMic, micButtonClick, startOrConnectBegin, h]

/-- Witness for C9's amended theorem at concrete connected and
disconnected push-to-talk states. -/
theorem pushToTalk_amended_witness :
    ((stepMic .press
        { transport := .connected, micEnabled := false, botTalking := false, connecting := false,
          connectedOnce := true, mode := .push, autoDuck := false, pressed := false,
          connectAttempts := 1 }).micEnabled = true
      ∧ (stepMic .press
        { transport := .connected, micEnabled := false, botTalking := false, connecting := false,
          connectedOnce := true, mode := .push, autoDuck := false, pressed := false,
          connectAttempts := 1 }).pressed = true)
    ∧ (stepMic .click
        { transport := .disconnected, micEnabled := false, botTalking := false, connecting := false,
          connectedOnce := false, mode := .push, autoDuck := false, pressed := false,
          connectAttempts := 0 }).connectAttempts = 1 :=
  ⟨(pushToTalk_amended _).1 rfl (by decide),
    ((pushToTalk_amended _).2.2.2 (by decide)).1⟩

/-! ## Claim theorems: identity store -/

theorem uuidStr_length (n : Nat) : (uuidStr n).length = 5 + n := by
  simp [uuidStr, String.length_append, String.length]
  omega

theorem uuidStr_ne {a b : Nat} (h : a ≠ b) : uuidStr a ≠ uuidStr b := by
  intro he
  have hl := congrArg String.length he
  rw [uuidStr_length, uuidStr_length] at hl
  omega

/-- C7: `startNewConversation` generates two brand-new identifiers (at
the next two freshness-counter positions), persists both, and returns
the pair (which is also installed as the new hook state); whenever the
previous thread and user identifiers were generated at earlier counter
positions, both members of the new pair differ from them, so the pair is
never mixed across conversations. -/
theorem startNewConversation_fresh_pair (g i j : Nat) (st : StorageModel)
    (hav : st.available = true) (hi : i < g) (hj : j < g) :
    startNewConversation g st
      = .ok ((uuidStr g, uuidStr (g + 1)), g + 2,
          { st with threadKey := some (uuidStr g), userKey := some (uuidStr (g + 1)) })
    ∧ uuidStr g ≠ uuidStr i ∧ uuidStr (g + 1) ≠ uuidStr j := by
  have k2 : ("voice-user-id" == "voice-thread-id") = false := by decide
  refine ⟨?_, uuidStr_ne (by omega), uuidStr_ne (by omega)⟩
  simp [startNewConversation, lsSetItem, hav, k2, Bind.bind, Except.bind]

/-- Witness for C7 at a concrete storage state whose previous pair was
generated at counters 0 and 1. -/
theorem startNewConversation_fresh_pair_witness :
    startNewConversation 2
        { available := true, threadKey := some (uuidStr 0), userKey := some (uuidStr 1) }
      = .ok ((uuidStr 2, uuidStr 3), 4,
          { available := true, threadKey := some (uuidStr 2), userKey := some (uuidStr 3) })
    ∧ uuidStr 2 ≠ uuidStr 0 ∧ uuidStr 3 ≠ uuidStr 1 :=
  startNewConversation_fresh_pair 2 0 1 _ rfl (by decide) (by decide)

/-- C8 (code behavior at the failing input): when storage is
unavailable, the unguarded `localStorage.getItem` in the `threadId`
initializer makes the whole identity initialization propagate the
exception — there is no in-memory fallback. -/
theorem identityInit_throws_when_storage_unavailable (g : Nat) (st : StorageModel)
    (h : st.available = false) :
    useThreadAndUserIdInit g st = .error "SecurityError" := by
  simp [useThreadAndUserIdInit, threadIdInit, lsGetItem, h, Bind.bind, Except.bind]

/-- Witness for C8's failing evaluation at a concrete unavailable
storage. -/
theorem identityInit_throws_witness :
    useThreadAndUserIdInit 0 { available := false } = .error "SecurityError" :=
  identityInit_throws_when_storage_unavailable 0 _ rfl

end VoiceUI
